import Mathlib

/-!
# filtere: the submit-then-poll proxy in front of check-host.net

A shallow embedding of `main.go`.  The pure parts (`buildCheckHostURL`, the
readiness test, the outcome construction, the HTTP status mapping) are Lean
functions.  The effectful parts (`http.NewRequest`, `client.Do`, `http.Get`,
`ioutil.ReadAll`, `json.Unmarshal`) are fields of a `World`: the handler is a
function of the world and returns, next to its response, the trace of the
network calls and sleeps it performed, in the order of the source.
-/

namespace Filtere

/-! ## Data model -/

/-- A decoded JSON value, what `encoding/json` stores in an `interface{}`.
`null` is the Go `nil` interface. -/
inductive JVal where
  | null
  | bool (b : Bool)
  | num (literal : String)
  | str (s : String)
  | arr (items : List JVal)
  | obj (fields : List (String × JVal))

/-- The test `v != nil` on an `interface{}` value. -/
def JVal.nonNil : JVal → Bool
  | .null => false
  | _ => true

/-- The type assertion `v.(string)`. -/
def JVal.assertString : JVal → Option String
  | .str s => some s
  | _ => none

/-- A Go `map[string]interface{}`; `none` is the nil map.  The entries are kept
as a list of key-value pairs (a decoded map has distinct keys; nothing below
depends on it, nor on the order of the entries). -/
abbrev GoMap := Option (List (String × JVal))

/-- The builtin `len(m)`. -/
def GoMap.len : GoMap → Nat
  | none => 0
  | some kvs => kvs.length

/-- The index expression `m[k]`: the zero value (nil) when the key is absent or
the map is nil. -/
def GoMap.index (m : GoMap) (k : String) : JVal :=
  match m with
  | none => JVal.null
  | some kvs => (kvs.lookup k).getD JVal.null

/-- A Go `error`: `none` is nil, `some msg` an error whose `Error()` is `msg`. -/
abbrev GoError := Option String

/-- The dynamic value held by the `Data interface{}` field. -/
inductive Payload where
  | nil
  | text (s : String)
  | map (m : GoMap)

/-- The struct `CheckResult`. -/
structure CheckResult where
  Status : String
  Message : String := ""
  Data : Payload := Payload.nil

/-- What the fiber context sends back: the status code and the value passed to
`c.JSON`. -/
structure Response where
  code : Nat
  body : CheckResult

/-- An `*http.Response` as far as the program reads it: the status code (never
read by the program) and what `ioutil.ReadAll(resp.Body)` returns. -/
structure HttpResponse where
  StatusCode : Nat
  Body : Except String String

/-- One observable action of a call, in program order. -/
inductive Event where
  | submit (url : String)
  | fetch (url : String)
  | sleep (d : Nat)
  deriving DecidableEq

/-- The `time.Duration` constant `time.Second`, in nanoseconds. -/
def Second : Nat := 1000000000

def StatusBadRequest : Nat := 400
def StatusInternalServerError : Nat := 500
def StatusOK : Nat := 200

/-- The surroundings of one call.  `httpGet i url` is the result of the
`http.Get(url)` issued by poll iteration `i`. -/
structure World where
  newRequest : String → GoError
  clientDo : String → Except String HttpResponse
  httpGet : Nat → String → Except String HttpResponse
  unmarshal : String → Except String GoMap

/-! ## The program -/

/-- The function `buildCheckHostURL` (main.go 20-31). -/
def buildCheckHostURL (ip method : String) : String × GoError :=
  if method = "http" then
    ("https://check-host.net/check-http?host=" ++ ip ++ "&node=ir1.node.check-host.net&node=ir2.node.check-host.net&node=ir3.node.check-host.net&node=ir5.node.check-host.net&node=ir6.node.check-host.net&node=ir7.node.check-host.net&node=ir8.node.check-host.net", none)
  else if method = "ping" then
    ("https://check-host.net/check-ping?host=" ++ ip ++ "&node=ir1.node.check-host.net&node=ir2.node.check-host.net&node=ir3.node.check-host.net&node=ir5.node.check-host.net&node=ir6.node.check-host.net&node=ir7.node.check-host.net&node=ir8.node.check-host.net", none)
  else if method = "dns" then
    ("https://check-host.net/check-dns?host=" ++ ip ++ "&node=ir1.node.check-host.net&node=ir2.node.check-host.net&node=ir3.node.check-host.net&node=ir5.node.check-host.net&node=ir6.node.check-host.net&node=ir7.node.check-host.net&node=ir8.node.check-host.net", none)
  else
    ("", some ("unsupported method: " ++ method))

/-- The address `fetchCheckHostResult` builds (main.go 34). -/
def resultURL (requestID : String) : String :=
  "https://check-host.net/check-result/" ++ requestID

/-- The function `fetchCheckHostResult` (main.go 33-49), as called by poll
iteration `i`. -/
def fetchCheckHostResult (w : World) (i : Nat) (requestID : String) : GoMap × GoError :=
  match w.httpGet i (resultURL requestID) with
  | .error e => (none, some e)
  | .ok resp =>
    match resp.Body with
    | .error e => (none, some e)
    | .ok body =>
      match w.unmarshal body with
      | .error e => (none, some e)
      | .ok result => (result, none)

/-- The inner `range` loop of the poll loop (main.go 111-117). -/
def anyNonNull (res : GoMap) : Bool :=
  match res with
  | none => false
  | some kvs => kvs.any (fun kv => kv.2.nonNil)

/-- The poll loop (main.go 107-124) from iteration `i` with `remaining`
iterations left (`remaining = 60 - i`).  Returns `finalResult` and the trace. -/
def pollLoop (w : World) (requestID : String) : Nat → Nat → GoMap × List Event
  | 0, _ => (none, [])
  | remaining + 1, i =>
    let r := fetchCheckHostResult w i requestID
    if r.2.isNone && decide (r.1.len > 0) && anyNonNull r.1 then
      (r.1, [Event.fetch (resultURL requestID)])
    else
      let rest := pollLoop w requestID remaining (i + 1)
      (rest.1, Event.fetch (resultURL requestID) :: Event.sleep (1 * Second) :: rest.2)

/-- The poll phase (main.go 107-129): the loop with its budget of 60 and the
value sent on the channel afterwards. -/
def pollPhase (w : World) (requestID : String) : CheckResult × List Event :=
  let r := pollLoop w requestID 60 0
  match r.1 with
  | none =>
    ({ Status := "pending", Message := "Results not ready yet. Try again later.",
       Data := Payload.map r.1 }, r.2)
  | some kvs => ({ Status := "ok", Data := Payload.map (some kvs) }, r.2)

/-- The goroutine of the handler (main.go 77-130): the one value it sends on
`resultChan`, and its trace. -/
def checkGoroutine (w : World) (url : String) : CheckResult × List Event :=
  match w.newRequest url with
  | some e => ({ Status := "error", Message := e }, [])
  | none =>
    match w.clientDo url with
    | .error e => ({ Status := "error", Message := e }, [Event.submit url])
    | .ok resp =>
      match resp.Body with
      | .error e => ({ Status := "error", Message := e }, [Event.submit url])
      | .ok body =>
        match w.unmarshal body with
        | .error _ =>
          ({ Status := "error", Message := "check-host.net returned non-JSON response",
             Data := Payload.text body }, [Event.submit url])
        | .ok apiResp =>
          match (apiResp.index "request_id").assertString with
          | none =>
            ({ Status := "error", Message := "No request_id in response",
               Data := Payload.map apiResp }, [Event.submit url])
          | some requestID =>
            let p := pollPhase w requestID
            (p.1, Event.submit url :: p.2)

/-- The `/check` handler (main.go 54-137) on the query parameters `ip` and
`method`: the response and the trace of the call. -/
def checkHandler (w : World) (ip method : String) : Response × List Event :=
  if ip = "" ∨ method = "" then
    ({ code := StatusBadRequest,
       body := { Status := "error", Message := "Missing 'ip' or 'method' query parameter." } }, [])
  else
    let b := buildCheckHostURL ip method
    match b.2 with
    | some e => ({ code := StatusBadRequest, body := { Status := "error", Message := e } }, [])
    | none =>
      let g := checkGoroutine w b.1
      if g.1.Status = "error" then
        ({ code := StatusInternalServerError, body := g.1 }, g.2)
      else
        ({ code := StatusOK, body := g.1 }, g.2)

/-! ## Vocabulary of the specification -/

/-- The seven vantage-point nodes of the submission endpoint, in order. -/
def fixedNodes : List String := ["1", "2", "3", "5", "6", "7", "8"]

/-- The submission URL as the specification writes it: path `check-m`, the
target as the `host` value, then one `node` parameter per fixed node. -/
def expectedURL (t m : String) : String :=
  "https://check-host.net/check-" ++ m ++ "?host=" ++ t ++
    String.join (fixedNodes.map (fun k => "&node=ir" ++ k ++ ".node.check-host.net"))

/-- The values of a result set. -/
def GoMap.values : GoMap → List JVal
  | none => []
  | some kvs => kvs.map Prod.snd

/-- The readiness predicate in the words of the specification: the fetch
returned no error, the decoded map is non-empty, and at least one of its values
is non-null. -/
def Ready (r : GoMap × GoError) : Prop :=
  r.2 = none ∧ 0 < r.1.len ∧ ∃ v ∈ r.1.values, v ≠ JVal.null

/-- A fetch result that is not ready, in the words of the specification: an
error, an empty or nil map, or a map whose values are all null. -/
def NotReady (r : GoMap × GoError) : Prop :=
  r.2 ≠ none ∨ r.1.len = 0 ∨ ∀ v ∈ r.1.values, v = JVal.null

def Event.isFetch : Event → Bool
  | .fetch _ => true
  | _ => false

/-- The number of fetches issued in a trace. -/
def fetchCount (tr : List Event) : Nat := tr.countP Event.isFetch

/-- The total time slept in a trace, in nanoseconds. -/
def totalSleep : List Event → Nat
  | [] => 0
  | Event.sleep d :: tr => d + totalSleep tr
  | _ :: tr => totalSleep tr

/-- The trace of `k` fetches each followed by a pause of one second, then `tl`. -/
def attempts (url : String) : Nat → List Event → List Event
  | 0, tl => tl
  | k + 1, tl => Event.fetch url :: Event.sleep (1 * Second) :: attempts url k tl

/-- The condition of the poll loop under which it keeps the result and breaks. -/
def readyCheck (r : GoMap × GoError) : Bool :=
  r.2.isNone && decide (r.1.len > 0) && anyNonNull r.1

/-- The same world with another answer to the submission. -/
def World.withSubmit (w : World) (r : Except String HttpResponse) : World :=
  { w with clientDo := fun _ => r }

/-! ## Sample worlds -/

def submitBody : String := "\x7b\"request_id\":\"abc123\"\x7d"

def limitBody : String := "\x7b\"error\":\"limit_exceeded\"\x7d"

def nullsBody : String :=
  "\x7b\"ir1.node.check-host.net\":null,\"ir2.node.check-host.net\":null\x7d"

def partialBody : String :=
  "\x7b\"ir1.node.check-host.net\":[[1,0.12,\"OK\",\"200\",\"93.184.216.34\"]],\"ir2.node.check-host.net\":null\x7d"

def partialMap : GoMap :=
  some [("ir1.node.check-host.net",
          JVal.arr [JVal.arr [JVal.num "1", JVal.num "0.12", JVal.str "OK", JVal.str "200",
            JVal.str "93.184.216.34"]]),
        ("ir2.node.check-host.net", JVal.null)]

/-- A decoder that knows the sample bodies and rejects everything else. -/
def sampleUnmarshal (body : String) : Except String GoMap :=
  if body = submitBody then .ok (some [("request_id", JVal.str "abc123")])
  else if body = limitBody then .ok (some [("error", JVal.str "limit_exceeded")])
  else if body = nullsBody then
    .ok (some [("ir1.node.check-host.net", JVal.null), ("ir2.node.check-host.net", JVal.null)])
  else if body = partialBody then .ok partialMap
  else if body = "\x7b\x7d" then .ok (some [])
  else .error "invalid character looking for beginning of value"

/-- The submission is accepted; the first two fetches see only nulls, the third
sees one node reporting. -/
def readyAtThird : World where
  newRequest := fun _ => none
  clientDo := fun _ => .ok ⟨200, .ok submitBody⟩
  httpGet := fun i _ => if i < 2 then .ok ⟨200, .ok nullsBody⟩ else .ok ⟨200, .ok partialBody⟩
  unmarshal := sampleUnmarshal

/-- The submission is accepted; the fetches fail in every way in turn: a
transport error, an unreadable body, a body that is not JSON, an empty object,
an object of nulls. -/
def neverReady : World where
  newRequest := fun _ => none
  clientDo := fun _ => .ok ⟨200, .ok submitBody⟩
  httpGet := fun i _ =>
    if i % 5 = 0 then .error "dial tcp: i/o timeout"
    else if i % 5 = 1 then .ok ⟨200, .error "unexpected EOF"⟩
    else if i % 5 = 2 then .ok ⟨200, .ok "<html>busy</html>"⟩
    else if i % 5 = 3 then .ok ⟨200, .ok "\x7b\x7d"⟩
    else .ok ⟨200, .ok nullsBody⟩
  unmarshal := sampleUnmarshal

/-- The submission URL of the sample calls. -/
def sampleURL : String := (buildCheckHostURL "example.com" "http").1

/-- The upstream refuses the submission with a JSON object that carries no
`request_id`. -/
def limitExceeded : World :=
  readyAtThird.withSubmit (.ok ⟨200, .ok limitBody⟩)

/-- The upstream answers the submission with an HTML page. -/
def htmlAnswer : World :=
  readyAtThird.withSubmit (.ok ⟨200, .ok "<html>busy</html>"⟩)

/-- The upstream answers the submission with status 502 and a well-formed body. -/
def badGateway : World :=
  readyAtThird.withSubmit (.ok ⟨502, .ok submitBody⟩)

/-! ## Auxiliary lemmas -/

theorem nonNil_iff (v : JVal) : v.nonNil = true ↔ v ≠ JVal.null := by
  cases v <;> simp [JVal.nonNil]

theorem anyNonNull_iff (m : GoMap) : anyNonNull m = true ↔ ∃ v ∈ m.values, v ≠ JVal.null := by
  cases m with
  | none => simp [anyNonNull, GoMap.values]
  | some kvs =>
    simp only [anyNonNull, GoMap.values, List.any_eq_true, List.mem_map, nonNil_iff]
    constructor
    · rintro ⟨kv, hkv, hne⟩
      exact ⟨kv.2, ⟨kv, hkv, rfl⟩, hne⟩
    · rintro ⟨v, ⟨kv, hkv, rfl⟩, hne⟩
      exact ⟨kv, hkv, hne⟩

theorem readyCheck_iff (r : GoMap × GoError) : readyCheck r = true ↔ Ready r := by
  unfold readyCheck Ready
  rw [Bool.and_eq_true, Bool.and_eq_true, anyNonNull_iff, decide_eq_true_iff,
    Option.isNone_iff_eq_none, and_assoc]

theorem notReady_iff (r : GoMap × GoError) : NotReady r ↔ ¬ Ready r := by
  unfold NotReady Ready
  constructor
  · rintro (h | h | h) ⟨h1, h2, v, hv, hne⟩
    · exact h h1
    · omega
    · exact hne (h v hv)
  · intro h
    by_cases h1 : r.2 = none
    · by_cases h2 : r.1.len = 0
      · exact Or.inr (Or.inl h2)
      · refine Or.inr (Or.inr fun v hv => ?_)
        by_contra hne
        exact h ⟨h1, Nat.pos_of_ne_zero h2, v, hv, hne⟩
    · exact Or.inl h1

theorem readyCheck_false_iff (r : GoMap × GoError) : readyCheck r = false ↔ NotReady r := by
  rw [notReady_iff, ← readyCheck_iff, Bool.not_eq_true]

theorem pollLoop_succ (w : World) (requestID : String) (n i : Nat) :
    pollLoop w requestID (n + 1) i =
      if readyCheck (fetchCheckHostResult w i requestID) then
        ((fetchCheckHostResult w i requestID).1, [Event.fetch (resultURL requestID)])
      else
        ((pollLoop w requestID n (i + 1)).1,
          Event.fetch (resultURL requestID) :: Event.sleep (1 * Second) ::
            (pollLoop w requestID n (i + 1)).2) := rfl

/-- The loop never keeps a nil or empty map. -/
theorem readyCheck_some (r : GoMap × GoError) (h : readyCheck r = true) :
    ∃ kvs, r.1 = some kvs := by
  rcases r with ⟨m, e⟩
  cases m with
  | none => simp [readyCheck, GoMap.len] at h
  | some kvs => exact ⟨kvs, rfl⟩

/-- Every run of the loop is one of two shapes: a first ready attempt `k`, all
earlier ones followed by a pause, or no ready attempt and a pause after each. -/
theorem pollLoop_shape (w : World) (requestID : String) (n i : Nat) :
    (∃ k, k < n ∧ (∀ j, j < k → readyCheck (fetchCheckHostResult w (i + j) requestID) = false) ∧
        readyCheck (fetchCheckHostResult w (i + k) requestID) = true ∧
        pollLoop w requestID n i =
          ((fetchCheckHostResult w (i + k) requestID).1,
            attempts (resultURL requestID) k [Event.fetch (resultURL requestID)])) ∨
    ((∀ j, j < n → readyCheck (fetchCheckHostResult w (i + j) requestID) = false) ∧
        pollLoop w requestID n i = (none, attempts (resultURL requestID) n [])) := by
  induction n generalizing i with
  | zero => exact Or.inr ⟨fun j hj => absurd hj (Nat.not_lt_zero j), rfl⟩
  | succ n ih =>
    rw [pollLoop_succ]
    by_cases hr : readyCheck (fetchCheckHostResult w i requestID) = true
    · refine Or.inl ⟨0, Nat.succ_pos n, fun j hj => absurd hj (Nat.not_lt_zero j), hr, ?_⟩
      rw [if_pos hr]
      rfl
    · rw [if_neg hr]
      have hf : readyCheck (fetchCheckHostResult w i requestID) = false := by
        simpa using hr
      rcases ih (i + 1) with ⟨k, hk, hbefore, hat, heq⟩ | ⟨hall, heq⟩
      · refine Or.inl ⟨k + 1, Nat.succ_lt_succ hk, ?_, ?_, ?_⟩
        · intro j hj
          cases j with
          | zero => exact hf
          | succ j =>
            have := hbefore j (Nat.lt_of_succ_lt_succ hj)
            rwa [show i + 1 + j = i + (j + 1) by omega] at this
        · rwa [show i + 1 + k = i + (k + 1) by omega] at hat
        · rw [heq, show i + 1 + k = i + (k + 1) by omega]
          rfl
      · refine Or.inr ⟨?_, ?_⟩
        · intro j hj
          cases j with
          | zero => exact hf
          | succ j =>
            have := hall j (Nat.lt_of_succ_lt_succ hj)
            rwa [show i + 1 + j = i + (j + 1) by omega] at this
        · rw [heq]
          rfl

theorem fetchCount_attempts (url : String) (k : Nat) (tl : List Event) :
    fetchCount (attempts url k tl) = k + fetchCount tl := by
  induction k with
  | zero => simp [attempts]
  | succ k ih =>
    simp only [attempts, fetchCount, List.countP_cons, Event.isFetch] at ih ⊢
    rw [ih]
    simp
    omega

theorem totalSleep_attempts (url : String) (k : Nat) (tl : List Event) :
    totalSleep (attempts url k tl) = k * Second + totalSleep tl := by
  induction k with
  | zero => simp [attempts]
  | succ k ih =>
    simp only [attempts, totalSleep, ih, Nat.succ_mul]
    omega


theorem fetchCount_cons_fetch (u : String) (tr : List Event) :
    fetchCount (Event.fetch u :: tr) = fetchCount tr + 1 := by
  simp [fetchCount, Event.isFetch]

theorem fetchCount_cons_sleep (d : Nat) (tr : List Event) :
    fetchCount (Event.sleep d :: tr) = fetchCount tr := by
  simp [fetchCount, Event.isFetch]

theorem fetchCount_cons_submit (u : String) (tr : List Event) :
    fetchCount (Event.submit u :: tr) = fetchCount tr := by
  simp [fetchCount, Event.isFetch]

/-- Where a fetch sits in a run of attempts: it is a fetch of the same address,
and either it is one of the `k` paused attempts, with its pause right after it,
or it is the closing fetch and nothing follows. -/
theorem attempts_split (url : String) (k : Nat) (tl pre post : List Event) (u : String)
    (htl : tl = [] ∨ tl = [Event.fetch url])
    (h : attempts url k tl = pre ++ Event.fetch u :: post) :
    u = url ∧
      ((∃ j, k = fetchCount pre + j + 1 ∧
          post = Event.sleep (1 * Second) :: attempts url j tl) ∨
        (k = fetchCount pre ∧ post = [] ∧ tl = [Event.fetch url])) := by
  induction k generalizing pre with
  | zero =>
    rcases htl with rfl | rfl
    · simp [attempts] at h
    · cases pre with
      | nil =>
        simp only [attempts, List.nil_append, List.cons.injEq, Event.fetch.injEq] at h
        exact ⟨h.1.symm, Or.inr ⟨rfl, h.2.symm, rfl⟩⟩
      | cons e pre => simp [attempts] at h
  | succ k ih =>
    cases pre with
    | nil =>
      simp only [attempts, List.nil_append, List.cons.injEq, Event.fetch.injEq] at h
      exact ⟨h.1.symm, Or.inl ⟨k, by simp [fetchCount], h.2.symm⟩⟩
    | cons e pre =>
      cases pre with
      | nil => simp [attempts] at h
      | cons e2 pre =>
        simp only [attempts, List.cons_append, List.cons.injEq] at h
        obtain ⟨rfl, rfl, h⟩ := h
        obtain ⟨hu, hcase⟩ := ih pre h
        refine ⟨hu, ?_⟩
        rw [fetchCount_cons_fetch, fetchCount_cons_sleep]
        rcases hcase with ⟨j, hj, hpost⟩ | ⟨hk, hpost, htl2⟩
        · exact Or.inl ⟨j, by omega, hpost⟩
        · exact Or.inr ⟨by omega, hpost, htl2⟩

/-- Between two fetches of a run of attempts with no fetch in between lies
exactly the one-second pause. -/
theorem attempts_between (url : String) (k : Nat) (tl pre mid post : List Event) (u v : String)
    (htl : tl = [] ∨ tl = [Event.fetch url])
    (h : attempts url k tl = pre ++ Event.fetch u :: (mid ++ Event.fetch v :: post))
    (hmid : ∀ x, Event.fetch x ∉ mid) :
    mid = [Event.sleep (1 * Second)] := by
  obtain ⟨-, hcase⟩ := attempts_split url k tl pre _ u htl h
  rcases hcase with ⟨j, -, hpost⟩ | ⟨-, hpost, -⟩
  · cases mid with
    | nil => simp at hpost
    | cons e mid =>
      simp only [List.cons_append, List.cons.injEq] at hpost
      obtain ⟨rfl, hrest⟩ := hpost
      cases mid with
      | nil => rfl
      | cons e2 mid =>
        exfalso
        cases j with
        | zero =>
          rcases htl with rfl | rfl
          · simp [attempts] at hrest
          · simp only [attempts, List.cons_append, List.cons.injEq] at hrest
            exact hmid url (by rw [hrest.1]; simp)
        | succ j =>
          simp only [attempts, List.cons_append, List.cons.injEq] at hrest
          exact hmid url (by rw [hrest.1]; simp)
  · simp at hpost

theorem mem_attempts_fetch (url : String) (k : Nat) (tl : List Event) (u : String)
    (h : Event.fetch u ∈ attempts url k tl) : u = url ∨ Event.fetch u ∈ tl := by
  induction k with
  | zero => exact Or.inr h
  | succ k ih =>
    simp only [attempts, List.mem_cons, Event.fetch.injEq, reduceCtorEq, false_or] at h
    rcases h with h | h
    · exact Or.inl h
    · exact ih h

/-- The two shapes of the poll phase: the first ready attempt `k` gives "ok"
with that attempt's map, no ready attempt among the 60 gives "pending". -/
theorem pollPhase_cases (w : World) (requestID : String) :
    (∃ k, k < 60 ∧ (∀ j, j < k → readyCheck (fetchCheckHostResult w j requestID) = false) ∧
        readyCheck (fetchCheckHostResult w k requestID) = true ∧
        pollPhase w requestID =
          ({ Status := "ok", Data := Payload.map (fetchCheckHostResult w k requestID).1 },
            attempts (resultURL requestID) k [Event.fetch (resultURL requestID)])) ∨
    ((∀ j, j < 60 → readyCheck (fetchCheckHostResult w j requestID) = false) ∧
        pollPhase w requestID =
          ({ Status := "pending", Message := "Results not ready yet. Try again later.",
             Data := Payload.map none },
            attempts (resultURL requestID) 60 [])) := by
  rcases pollLoop_shape w requestID 60 0 with ⟨k, hk, hbefore, hat, heq⟩ | ⟨hall, heq⟩
  · simp only [Nat.zero_add] at hbefore hat heq
    refine Or.inl ⟨k, hk, hbefore, hat, ?_⟩
    obtain ⟨kvs, hkvs⟩ := readyCheck_some _ hat
    simp only [pollPhase, heq, hkvs]
  · simp only [Nat.zero_add] at hall
    refine Or.inr ⟨hall, ?_⟩
    simp only [pollPhase, heq]


theorem assertString_eq_some (v : JVal) (r : String) :
    v.assertString = some r ↔ v = JVal.str r := by
  cases v <;> simp [JVal.assertString]

theorem pollLoop_withSubmit (w : World) (x : Except String HttpResponse) (requestID : String)
    (n i : Nat) : pollLoop (w.withSubmit x) requestID n i = pollLoop w requestID n i := by
  induction n generalizing i with
  | zero => rfl
  | succ n ih =>
    rw [pollLoop_succ, pollLoop_succ, ih]
    rfl

theorem pollPhase_withSubmit (w : World) (x : Except String HttpResponse) (requestID : String) :
    pollPhase (w.withSubmit x) requestID = pollPhase w requestID := by
  simp only [pollPhase, pollLoop_withSubmit]

theorem pollPhase_status (w : World) (requestID : String) :
    (pollPhase w requestID).1.Status = "ok" ∨ (pollPhase w requestID).1.Status = "pending" := by
  rcases pollPhase_cases w requestID with ⟨k, -, -, -, heq⟩ | ⟨-, heq⟩
  · exact Or.inl (by rw [heq])
  · exact Or.inr (by rw [heq])

theorem pollPhase_status_ne_error (w : World) (requestID : String) :
    (pollPhase w requestID).1.Status ≠ "error" := by
  rcases pollPhase_status w requestID with h | h <;> rw [h] <;> decide

/-- The poll phase always issues a first fetch. -/
theorem pollPhase_fetchCount_pos (w : World) (requestID : String) :
    0 < fetchCount (pollPhase w requestID).2 := by
  rcases pollPhase_cases w requestID with ⟨k, -, -, -, heq⟩ | ⟨-, heq⟩
  · rw [heq, fetchCount_attempts, fetchCount_cons_fetch]
    omega
  · rw [heq, fetchCount_attempts]
    omega

/-- The trace of the poll phase: at most 60 paused attempts, closed by nothing
or by one more fetch. -/
theorem pollPhase_trace (w : World) (requestID : String) :
    ∃ k tl, k ≤ 60 ∧ (tl = [] ∨ tl = [Event.fetch (resultURL requestID)]) ∧
      (pollPhase w requestID).2 = attempts (resultURL requestID) k tl := by
  rcases pollPhase_cases w requestID with ⟨k, hk, -, -, heq⟩ | ⟨-, heq⟩
  · exact ⟨k, _, Nat.le_of_lt hk, Or.inr rfl, by rw [heq]⟩
  · exact ⟨60, _, Nat.le_refl _, Or.inl rfl, by rw [heq]⟩

/-- The goroutine either fails during the submission, with at most the
submission in its trace, or runs the poll phase for the extracted id. -/
theorem checkGoroutine_cases (w : World) (url : String) :
    ((checkGoroutine w url).1.Status = "error" ∧
        ((checkGoroutine w url).2 = [] ∨ (checkGoroutine w url).2 = [Event.submit url])) ∨
      ∃ requestID, checkGoroutine w url =
        ((pollPhase w requestID).1, Event.submit url :: (pollPhase w requestID).2) := by
  unfold checkGoroutine
  split
  · exact Or.inl ⟨rfl, Or.inl rfl⟩
  · split
    · exact Or.inl ⟨rfl, Or.inr rfl⟩
    · split
      · exact Or.inl ⟨rfl, Or.inr rfl⟩
      · split
        · exact Or.inl ⟨rfl, Or.inr rfl⟩
        · split
          · exact Or.inl ⟨rfl, Or.inr rfl⟩
          · exact Or.inr ⟨_, rfl⟩

/-- The handler either rejects the call with 400 and an empty trace, or answers
with what the goroutine sent, 500 exactly for status "error". -/
theorem checkHandler_cases (w : World) (ip method : String) :
    ((checkHandler w ip method).1.code = 400 ∧
        (checkHandler w ip method).1.body.Status = "error" ∧
        (checkHandler w ip method).2 = [] ∧
        (ip = "" ∨ method = "" ∨ ¬ (method = "http" ∨ method = "ping" ∨ method = "dns"))) ∨
      (ip ≠ "" ∧ (method = "http" ∨ method = "ping" ∨ method = "dns") ∧
        (checkHandler w ip method).1.body = (checkGoroutine w (buildCheckHostURL ip method).1).1 ∧
        (checkHandler w ip method).2 = (checkGoroutine w (buildCheckHostURL ip method).1).2 ∧
        (checkHandler w ip method).1.code =
          if (checkGoroutine w (buildCheckHostURL ip method).1).1.Status = "error" then 500
          else 200) := by
  unfold checkHandler
  by_cases h1 : ip = "" ∨ method = ""
  · rw [if_pos h1]
    refine Or.inl ⟨rfl, rfl, rfl, ?_⟩
    rcases h1 with h | h
    · exact Or.inl h
    · exact Or.inr (Or.inl h)
  · rw [if_neg h1]
    simp only [not_or] at h1
    by_cases hm : method = "http" ∨ method = "ping" ∨ method = "dns"
    · have hb : (buildCheckHostURL ip method).2 = none := by
        rcases hm with rfl | rfl | rfl <;> rfl
      refine Or.inr ⟨h1.1, hm, ?_⟩
      simp only [hb]
      split <;> simp_all [StatusInternalServerError, StatusOK]
    · have hb : (buildCheckHostURL ip method).2 = some ("unsupported method: " ++ method) := by
        simp only [not_or] at hm
        simp [buildCheckHostURL, hm]
      refine Or.inl ⟨?_, ?_, ?_, Or.inr (Or.inr hm)⟩ <;> first | (simp only [hb]; done) | (simp only [hb]; rfl)

/-- The trace of a call: empty, the submission alone, or the submission
followed by a run of at most 60 paused attempts. -/
theorem checkHandler_trace (w : World) (ip method : String) :
    (checkHandler w ip method).2 = [] ∨
      ∃ url, (checkHandler w ip method).2 = [Event.submit url] ∨
        ∃ fetchURL k tl, k ≤ 60 ∧ (tl = [] ∨ tl = [Event.fetch fetchURL]) ∧
          (checkHandler w ip method).2 = Event.submit url :: attempts fetchURL k tl := by
  rcases checkHandler_cases w ip method with ⟨-, -, ht, -⟩ | ⟨-, -, -, ht, -⟩
  · exact Or.inl ht
  · rw [ht]
    rcases checkGoroutine_cases w (buildCheckHostURL ip method).1 with ⟨-, h | h⟩ | ⟨r, hg⟩
    · exact Or.inl h
    · exact Or.inr ⟨_, Or.inl h⟩
    · obtain ⟨k, tl, hk, htl, hp⟩ := pollPhase_trace w r
      exact Or.inr ⟨_, Or.inr ⟨_, k, tl, hk, htl, by rw [hg, hp]⟩⟩

/-! ## The claims -/

/-- C1: if the Nth fetch (1 ≤ N ≤ 60) is the first ready one, the poll phase
issues exactly N fetches, stops on the Nth without a pause after it, and sends
`CheckResult{Status: "ok"}` whose data is exactly the map of the Nth fetch. -/
theorem poll_first_ready (w : World) (requestID : String) (N : Nat) (hN : 1 ≤ N ∧ N ≤ 60)
    (hready : Ready (fetchCheckHostResult w (N - 1) requestID))
    (hbefore : ∀ i, i < N - 1 → ¬ Ready (fetchCheckHostResult w i requestID)) :
    (pollPhase w requestID).1 =
        { Status := "ok", Message := "",
          Data := Payload.map (fetchCheckHostResult w (N - 1) requestID).1 } ∧
      fetchCount (pollPhase w requestID).2 = N ∧
      (pollPhase w requestID).2 =
        attempts (resultURL requestID) (N - 1) [Event.fetch (resultURL requestID)] := by
  have hkey : ∀ k, k < 60 →
      (∀ j, j < k → readyCheck (fetchCheckHostResult w j requestID) = false) →
      readyCheck (fetchCheckHostResult w k requestID) = true → k = N - 1 := by
    intro k _ hb ha
    rcases Nat.lt_trichotomy k (N - 1) with hlt | heq | hgt
    · exact absurd ((readyCheck_iff _).1 ha) (hbefore k hlt)
    · exact heq
    · have := hb (N - 1) hgt
      rw [(readyCheck_iff _).2 hready] at this
      exact absurd this (by decide)
  rcases pollPhase_cases w requestID with ⟨k, hk, hb, ha, heq⟩ | ⟨hall, -⟩
  · obtain rfl := hkey k hk hb ha
    rw [heq]
    refine ⟨rfl, ?_, rfl⟩
    simp only [fetchCount_attempts, fetchCount_cons_fetch]
    simp only [fetchCount, List.countP_nil]
    omega
  · have := hall (N - 1) (by omega)
    rw [(readyCheck_iff _).2 hready] at this
    exact absurd this (by decide)

theorem poll_first_ready_witness :
    (pollPhase readyAtThird "abc123").1 =
        { Status := "ok", Message := "", Data := Payload.map partialMap } ∧
      fetchCount (pollPhase readyAtThird "abc123").2 = 3 ∧
      (pollPhase readyAtThird "abc123").2 =
        attempts (resultURL "abc123") 2 [Event.fetch (resultURL "abc123")] :=
  poll_first_ready readyAtThird "abc123" 3 ⟨by decide, by decide⟩
    ((readyCheck_iff _).1 (by decide))
    (fun i hi => by
      have h : ∀ j, j < 2 → readyCheck (fetchCheckHostResult readyAtThird j "abc123") = false := by
        decide
      rw [← readyCheck_iff, h i hi]
      decide)

/-- C2: if none of the 60 fetches is ready (an error, an empty or nil map, or a
map of nulls, in any mixture), the poll phase issues exactly 60 fetches and
sends status "pending"; and whatever the fetches return, the status sent by the
poll phase is never "error". -/
theorem poll_exhausted (w : World) (requestID : String) :
    ((∀ i, i < 60 → NotReady (fetchCheckHostResult w i requestID)) →
        fetchCount (pollPhase w requestID).2 = 60 ∧
        (pollPhase w requestID).1.Status = "pending") ∧
      (pollPhase w requestID).1.Status ≠ "error" := by
  rcases pollPhase_cases w requestID with ⟨k, hk, -, ha, heq⟩ | ⟨-, heq⟩
  · rw [heq]
    refine ⟨fun hnot => ?_, show "ok" ≠ "error" by decide⟩
    have := (readyCheck_false_iff _).2 (hnot k hk)
    rw [ha] at this
    exact absurd this (by decide)
  · rw [heq]
    refine ⟨fun _ => ⟨?_, rfl⟩, show "pending" ≠ "error" by decide⟩
    show fetchCount (attempts (resultURL requestID) 60 []) = 60
    rw [fetchCount_attempts]
    rfl

theorem poll_exhausted_witness :
    fetchCount (pollPhase neverReady "abc123").2 = 60 ∧
      (pollPhase neverReady "abc123").1.Status = "pending" :=
  (poll_exhausted neverReady "abc123").1 (fun i hi => by
    have h : ∀ j, j < 60 → readyCheck (fetchCheckHostResult neverReady j "abc123") = false := by
      decide
    exact (readyCheck_false_iff _).1 (h i hi))

/-- C3: for a method among "http", "ping", "dns" and any target, the builder
returns no error and the URL `https://check-host.net/check-m?host=t` followed
by the seven fixed node parameters in order, the target embedded verbatim. -/
theorem build_supported (t m : String) (hm : m = "http" ∨ m = "ping" ∨ m = "dns") :
    buildCheckHostURL t m = (expectedURL t m, none) := by
  rcases hm with rfl | rfl | rfl <;> rfl

theorem build_supported_witness :
    buildCheckHostURL "a b&c%#" "ping" =
      ("https://check-host.net/check-ping?host=a b&c%#&node=ir1.node.check-host.net&node=ir2.node.check-host.net&node=ir3.node.check-host.net&node=ir5.node.check-host.net&node=ir6.node.check-host.net&node=ir7.node.check-host.net&node=ir8.node.check-host.net", none) :=
  build_supported "a b&c%#" "ping" (Or.inr (Or.inl rfl))

/-- C4: for a method that is not exactly "http", "ping" or "dns", the builder
returns the empty URL and the error "unsupported method: m". -/
theorem build_unsupported (t m : String) (hm : ¬ (m = "http" ∨ m = "ping" ∨ m = "dns")) :
    buildCheckHostURL t m = ("", some ("unsupported method: " ++ m)) := by
  simp only [not_or] at hm
  simp [buildCheckHostURL, hm]

theorem build_unsupported_witness :
    buildCheckHostURL "example.com" "HTTP" = ("", some "unsupported method: HTTP") ∧
      buildCheckHostURL "example.com" "" = ("", some "unsupported method: ") :=
  ⟨build_unsupported "example.com" "HTTP" (by decide),
    build_unsupported "example.com" "" (by decide)⟩


/-- C5: when the submission body decodes to an object whose "request_id" is a
string r, the poll phase runs with correlation id r and every fetch goes to
`https://check-host.net/check-result/r`; when the decoded object has no string
"request_id", the status sent is "error" and no fetch is issued. -/
theorem request_id_extraction (w : World) (url body : String) (code : Nat) (m : GoMap)
    (hreq : w.newRequest url = none)
    (hdo : w.clientDo url = .ok ⟨code, .ok body⟩)
    (hdec : w.unmarshal body = .ok m) :
    (∀ r, m.index "request_id" = JVal.str r →
        checkGoroutine w url = ((pollPhase w r).1, Event.submit url :: (pollPhase w r).2) ∧
        Event.fetch ("https://check-host.net/check-result/" ++ r) ∈ (checkGoroutine w url).2 ∧
        ∀ u, Event.fetch u ∈ (checkGoroutine w url).2 →
          u = "https://check-host.net/check-result/" ++ r) ∧
      ((∀ r, m.index "request_id" ≠ JVal.str r) →
        (checkGoroutine w url).1.Status = "error" ∧
        ∀ u, Event.fetch u ∉ (checkGoroutine w url).2) := by
  constructor
  · intro r hr
    have hg : checkGoroutine w url =
        ((pollPhase w r).1, Event.submit url :: (pollPhase w r).2) := by
      simp only [checkGoroutine, hreq, hdo, hdec, hr, JVal.assertString]
    refine ⟨hg, ?_, ?_⟩
    · rw [hg]
      refine List.mem_cons_of_mem _ ?_
      rcases pollPhase_cases w r with ⟨k, -, -, -, heq⟩ | ⟨-, heq⟩
      · rw [heq]
        cases k <;> simp [attempts, resultURL]
      · rw [heq]
        simp [attempts, resultURL]
    · intro u hu
      rw [hg] at hu
      simp only [List.mem_cons, reduceCtorEq, false_or] at hu
      rcases pollPhase_cases w r with ⟨k, -, -, -, heq⟩ | ⟨-, heq⟩
      · rw [heq] at hu
        rcases mem_attempts_fetch _ _ _ _ hu with h | h
        · exact h
        · simpa using h
      · rw [heq] at hu
        rcases mem_attempts_fetch _ _ _ _ hu with h | h
        · exact h
        · simp at h
  · intro hno
    have hnone : (m.index "request_id").assertString = none := by
      cases hv : m.index "request_id" with
      | str s => exact absurd hv (hno s)
      | _ => rfl
    have hg : checkGoroutine w url =
        ({ Status := "error", Message := "No request_id in response", Data := Payload.map m },
          [Event.submit url]) := by
      simp only [checkGoroutine, hreq, hdo, hdec, hnone]
    rw [hg]
    exact ⟨rfl, fun u hu => by simp at hu⟩

theorem request_id_extraction_witness :
    (checkGoroutine readyAtThird sampleURL =
        ((pollPhase readyAtThird "abc123").1,
          Event.submit sampleURL :: (pollPhase readyAtThird "abc123").2) ∧
      Event.fetch ("https://check-host.net/check-result/" ++ "abc123") ∈
        (checkGoroutine readyAtThird sampleURL).2 ∧
      ∀ u, Event.fetch u ∈ (checkGoroutine readyAtThird sampleURL).2 →
        u = "https://check-host.net/check-result/" ++ "abc123") ∧
    ((checkGoroutine limitExceeded sampleURL).1.Status = "error" ∧
      ∀ u, Event.fetch u ∉ (checkGoroutine limitExceeded sampleURL).2) :=
  ⟨(request_id_extraction readyAtThird sampleURL submitBody 200
      (some [("request_id", JVal.str "abc123")]) rfl rfl rfl).1 "abc123" rfl,
    (request_id_extraction limitExceeded sampleURL limitBody 200
      (some [("error", JVal.str "limit_exceeded")]) rfl rfl rfl).2
      (fun r h => by simp [GoMap.index, List.lookup] at h)⟩

/-- C6: when the submission body does not decode, the status sent is "error",
the data is the raw body text, and no fetch is issued. -/
theorem non_json_submission (w : World) (url body e : String) (code : Nat)
    (hreq : w.newRequest url = none)
    (hdo : w.clientDo url = .ok ⟨code, .ok body⟩)
    (hdec : w.unmarshal body = .error e) :
    (checkGoroutine w url).1.Status = "error" ∧
      (checkGoroutine w url).1.Data = Payload.text body ∧
      (checkGoroutine w url).2 = [Event.submit url] ∧
      ∀ u, Event.fetch u ∉ (checkGoroutine w url).2 := by
  have hg : checkGoroutine w url =
      ({ Status := "error", Message := "check-host.net returned non-JSON response",
         Data := Payload.text body }, [Event.submit url]) := by
    simp only [checkGoroutine, hreq, hdo, hdec]
  rw [hg]
  exact ⟨rfl, rfl, rfl, fun u hu => by simp at hu⟩

theorem non_json_submission_witness :
    (checkGoroutine htmlAnswer sampleURL).1.Status = "error" ∧
      (checkGoroutine htmlAnswer sampleURL).1.Data = Payload.text "<html>busy</html>" ∧
      (checkGoroutine htmlAnswer sampleURL).2 = [Event.submit sampleURL] ∧
      ∀ u, Event.fetch u ∉ (checkGoroutine htmlAnswer sampleURL).2 :=
  non_json_submission htmlAnswer sampleURL "<html>busy</html>"
    "invalid character looking for beginning of value" 200 rfl rfl rfl


/-- C7, as stated, fails: a submission answered with status 502 and a body
that carries a request id is not an error; the call polls (three fetches here)
and ends with status "ok" and code 200. -/
theorem non_2xx_submission_polls :
    badGateway.clientDo sampleURL = .ok ⟨502, .ok submitBody⟩ ∧
      ¬ (200 ≤ 502 ∧ 502 < 300) ∧
      (checkHandler badGateway "example.com" "http").1.body.Status = "ok" ∧
      (checkHandler badGateway "example.com" "http").1.code = 200 ∧
      fetchCount (checkHandler badGateway "example.com" "http").2 = 3 :=
  ⟨rfl, by decide, by decide, by decide, by decide⟩

/-- C7, amended: the status code of the submission response is not inspected.
For a response that is not 2xx the goroutine does exactly what it does for the
same body with status 200, and it sends "error" without a fetch if and only if
the body cannot be read, does not decode, or has no string "request_id". -/
theorem status_code_not_inspected (w : World) (url : String) (resp : HttpResponse)
    (_hcode : ¬ (200 ≤ resp.StatusCode ∧ resp.StatusCode < 300))
    (hreq : w.newRequest url = none)
    (hdo : w.clientDo url = .ok resp) :
    checkGoroutine w url = checkGoroutine (w.withSubmit (.ok ⟨200, resp.Body⟩)) url ∧
      (((checkGoroutine w url).1.Status = "error" ∧ fetchCount (checkGoroutine w url).2 = 0) ↔
        ∀ body m r, resp.Body = .ok body → w.unmarshal body = .ok m →
          m.index "request_id" ≠ JVal.str r) := by
  obtain ⟨code, rbody⟩ := resp
  constructor
  · cases rbody with
    | error e => simp only [checkGoroutine, World.withSubmit, hreq, hdo]
    | ok body =>
      cases hdec : w.unmarshal body with
      | error e => simp only [checkGoroutine, World.withSubmit, hreq, hdo, hdec]
      | ok m =>
        cases hrid : (m.index "request_id").assertString with
        | none => simp only [checkGoroutine, World.withSubmit, hreq, hdo, hdec, hrid]
        | some r =>
          have h1 : checkGoroutine w url =
              ((pollPhase w r).1, Event.submit url :: (pollPhase w r).2) := by
            simp only [checkGoroutine, hreq, hdo, hdec, hrid]
          have h2 : checkGoroutine (w.withSubmit (.ok ⟨200, .ok body⟩)) url =
              ((pollPhase (w.withSubmit (.ok ⟨200, .ok body⟩)) r).1,
                Event.submit url :: (pollPhase (w.withSubmit (.ok ⟨200, .ok body⟩)) r).2) := by
            simp only [checkGoroutine, World.withSubmit, hreq, hdec, hrid]
          rw [h1, h2, pollPhase_withSubmit]
  · cases rbody with
    | error e =>
      have hg : checkGoroutine w url = ({ Status := "error", Message := e }, [Event.submit url]) := by
        simp only [checkGoroutine, hreq, hdo]
      rw [hg]
      exact ⟨fun _ body m r hb => (nomatch hb), fun _ => ⟨rfl, rfl⟩⟩
    | ok body =>
      cases hdec : w.unmarshal body with
      | error e =>
        have hg : checkGoroutine w url =
            ({ Status := "error", Message := "check-host.net returned non-JSON response",
               Data := Payload.text body }, [Event.submit url]) := by
          simp only [checkGoroutine, hreq, hdo, hdec]
        rw [hg]
        refine ⟨fun _ b m r hb hm => ?_, fun _ => ⟨rfl, rfl⟩⟩
        cases hb
        rw [hdec] at hm
        cases hm
      | ok m =>
        cases hrid : (m.index "request_id").assertString with
        | none =>
          have hg : checkGoroutine w url =
              ({ Status := "error", Message := "No request_id in response",
                 Data := Payload.map m }, [Event.submit url]) := by
            simp only [checkGoroutine, hreq, hdo, hdec, hrid]
          rw [hg]
          refine ⟨fun _ b m2 r hb hm hr => ?_, fun _ => ⟨rfl, rfl⟩⟩
          cases hb
          rw [hdec] at hm
          cases hm
          rw [(assertString_eq_some _ _).2 hr] at hrid
          cases hrid
        | some r =>
          have hg : checkGoroutine w url =
              ((pollPhase w r).1, Event.submit url :: (pollPhase w r).2) := by
            simp only [checkGoroutine, hreq, hdo, hdec, hrid]
          rw [hg]
          constructor
          · rintro ⟨herr, -⟩
            exact absurd herr (pollPhase_status_ne_error w r)
          · intro hall
            exact absurd ((assertString_eq_some _ _).1 hrid) (hall body m r rfl hdec)

theorem status_code_not_inspected_witness :
    checkGoroutine badGateway sampleURL =
        checkGoroutine (badGateway.withSubmit (.ok ⟨200, .ok submitBody⟩)) sampleURL ∧
      (((checkGoroutine badGateway sampleURL).1.Status = "error" ∧
          fetchCount (checkGoroutine badGateway sampleURL).2 = 0) ↔
        ∀ body m r, (Except.ok submitBody : Except String String) = .ok body →
          badGateway.unmarshal body = .ok m → m.index "request_id" ≠ JVal.str r) :=
  status_code_not_inspected badGateway sampleURL ⟨502, .ok submitBody⟩ (by decide) rfl rfl

/-- C8: when `ip` is empty, `method` is empty, or `method` is not one of
"http", "ping", "dns", the handler answers 400 with status "error" and performs
no network call at all. -/
theorem validation_rejects (w : World) (ip method : String)
    (h : ip = "" ∨ method = "" ∨ ¬ (method = "http" ∨ method = "ping" ∨ method = "dns")) :
    (checkHandler w ip method).1.code = 400 ∧
      (checkHandler w ip method).1.body.Status = "error" ∧
      (checkHandler w ip method).2 = [] := by
  rcases checkHandler_cases w ip method with ⟨hc, hs, ht, -⟩ | ⟨hip, hm, -⟩
  · exact ⟨hc, hs, ht⟩
  · rcases h with h | h | h
    · exact absurd h hip
    · subst h
      exact absurd hm (by decide)
    · exact absurd hm h

theorem validation_rejects_witness :
    ((checkHandler readyAtThird "" "http").1.code = 400 ∧
        (checkHandler readyAtThird "" "http").1.body.Status = "error" ∧
        (checkHandler readyAtThird "" "http").2 = []) ∧
      ((checkHandler readyAtThird "example.com" "").1.code = 400 ∧
        (checkHandler readyAtThird "example.com" "").1.body.Status = "error" ∧
        (checkHandler readyAtThird "example.com" "").2 = []) ∧
      ((checkHandler readyAtThird "example.com" "tcp").1.code = 400 ∧
        (checkHandler readyAtThird "example.com" "tcp").1.body.Status = "error" ∧
        (checkHandler readyAtThird "example.com" "tcp").2 = []) :=
  ⟨validation_rejects readyAtThird "" "http" (Or.inl rfl),
    validation_rejects readyAtThird "example.com" "" (Or.inr (Or.inl rfl)),
    validation_rejects readyAtThird "example.com" "tcp" (Or.inr (Or.inr (by decide)))⟩

/-- C9: for a call that passes validation, the body of the response is the
value the goroutine sent, the code is 500 exactly when its status is "error"
and 200 when it is "ok" or "pending", and its status is one of the three. -/
theorem status_mapping (w : World) (ip method : String) (hip : ip ≠ "")
    (hm : method = "http" ∨ method = "ping" ∨ method = "dns") :
    (checkHandler w ip method).1.body = (checkGoroutine w (buildCheckHostURL ip method).1).1 ∧
      ((checkHandler w ip method).1.code = 500 ↔
        (checkHandler w ip method).1.body.Status = "error") ∧
      ((checkHandler w ip method).1.body.Status = "ok" ∨
          (checkHandler w ip method).1.body.Status = "pending" →
        (checkHandler w ip method).1.code = 200) ∧
      ((checkHandler w ip method).1.body.Status = "ok" ∨
        (checkHandler w ip method).1.body.Status = "pending" ∨
        (checkHandler w ip method).1.body.Status = "error") := by
  rcases checkHandler_cases w ip method with ⟨-, -, -, h⟩ | ⟨-, -, hbody, -, hcode⟩
  · rcases h with h | h | h
    · exact absurd h hip
    · subst h
      exact absurd hm (by decide)
    · exact absurd hm h
  · rw [hbody, hcode]
    refine ⟨rfl, ?_, ?_, ?_⟩
    · by_cases he : (checkGoroutine w (buildCheckHostURL ip method).1).1.Status = "error"
      · simp [he]
      · simp [he]
    · rintro (h | h) <;> rw [h] <;> decide
    · rcases checkGoroutine_cases w (buildCheckHostURL ip method).1 with ⟨he, -⟩ | ⟨r, hg⟩
      · exact Or.inr (Or.inr he)
      · rw [hg]
        rcases pollPhase_status w r with h | h
        · exact Or.inl h
        · exact Or.inr (Or.inl h)

theorem status_mapping_witness :
    (checkHandler neverReady "example.com" "dns").1.body =
        (checkGoroutine neverReady (buildCheckHostURL "example.com" "dns").1).1 ∧
      ((checkHandler neverReady "example.com" "dns").1.code = 500 ↔
        (checkHandler neverReady "example.com" "dns").1.body.Status = "error") ∧
      ((checkHandler neverReady "example.com" "dns").1.body.Status = "ok" ∨
          (checkHandler neverReady "example.com" "dns").1.body.Status = "pending" →
        (checkHandler neverReady "example.com" "dns").1.code = 200) ∧
      ((checkHandler neverReady "example.com" "dns").1.body.Status = "ok" ∨
        (checkHandler neverReady "example.com" "dns").1.body.Status = "pending" ∨
        (checkHandler neverReady "example.com" "dns").1.body.Status = "error") :=
  status_mapping neverReady "example.com" "dns" (by decide) (Or.inr (Or.inr rfl))


/-- C10: in the trace of one call the submission comes before every fetch,
two consecutive fetches are separated by exactly one pause of one second, the
pauses add up to at most 60 seconds, and in the poll phase the fetch of a ready
attempt ends the trace while every other fetch is followed by its pause. -/
theorem trace_ordering (w : World) (ip method requestID : String) :
    (∀ pre post u, (checkHandler w ip method).2 = pre ++ Event.fetch u :: post →
        ∃ s pre2, pre = Event.submit s :: pre2) ∧
      (∀ pre mid post u v,
        (checkHandler w ip method).2 = pre ++ Event.fetch u :: (mid ++ Event.fetch v :: post) →
        (∀ x, Event.fetch x ∉ mid) → mid = [Event.sleep Second]) ∧
      totalSleep (checkHandler w ip method).2 ≤ 60 * Second ∧
      (∀ pre post u, (pollPhase w requestID).2 = pre ++ Event.fetch u :: post →
        (Ready (fetchCheckHostResult w (fetchCount pre) requestID) → post = []) ∧
        (¬ Ready (fetchCheckHostResult w (fetchCount pre) requestID) →
          ∃ post2, post = Event.sleep Second :: post2)) := by
  have hone : 1 * Second = Second := Nat.one_mul _
  refine ⟨?_, ?_, ?_, ?_⟩
  · intro pre post u h
    rcases checkHandler_trace w ip method with h0 | ⟨url, h1 | ⟨f, k, tl, -, -, h2⟩⟩
    · rw [h0] at h
      simp at h
    · rw [h1] at h
      cases pre with
      | nil => simp at h
      | cons e pre =>
        simp only [List.cons_append, List.cons.injEq] at h
        exact ⟨url, pre, by rw [h.1]⟩
    · rw [h2] at h
      cases pre with
      | nil => simp at h
      | cons e pre =>
        simp only [List.cons_append, List.cons.injEq] at h
        exact ⟨url, pre, by rw [h.1]⟩
  · intro pre mid post u v h hmid
    rcases checkHandler_trace w ip method with h0 | ⟨url, h1 | ⟨f, k, tl, -, htl, h2⟩⟩
    · rw [h0] at h
      simp at h
    · rw [h1] at h
      cases pre with
      | nil => simp at h
      | cons e pre => simp at h
    · rw [h2] at h
      cases pre with
      | nil => simp at h
      | cons e pre =>
        simp only [List.cons_append, List.cons.injEq] at h
        rw [← hone]
        exact attempts_between f k tl pre mid post u v htl h.2 hmid
  · rcases checkHandler_trace w ip method with h0 | ⟨url, h1 | ⟨f, k, tl, hk, htl, h2⟩⟩
    · rw [h0]
      exact Nat.zero_le _
    · rw [h1]
      exact Nat.zero_le _
    · rw [h2]
      simp only [totalSleep, totalSleep_attempts]
      have htl0 : totalSleep tl = 0 := by
        rcases htl with rfl | rfl <;> rfl
      rw [htl0, Nat.add_zero]
      exact Nat.mul_le_mul_right _ hk
  · intro pre post u h
    rw [← hone]
    rcases pollPhase_cases w requestID with ⟨k, -, hb, ha, heq⟩ | ⟨hall, heq⟩
    · rw [heq] at h
      obtain ⟨-, hcase⟩ := attempts_split _ k _ pre post u (Or.inr rfl) h
      rcases hcase with ⟨j, hj, hpost⟩ | ⟨hk, hpost, -⟩
      · have hnr := hb (fetchCount pre) (by omega)
        refine ⟨fun hr => ?_, fun _ => ⟨_, hpost⟩⟩
        rw [(readyCheck_iff _).2 hr] at hnr
        exact absurd hnr (by decide)
      · subst hk
        exact ⟨fun _ => hpost, fun hn => absurd ((readyCheck_iff _).1 ha) hn⟩
    · rw [heq] at h
      obtain ⟨-, hcase⟩ := attempts_split _ 60 _ pre post u (Or.inl rfl) h
      rcases hcase with ⟨j, hj, hpost⟩ | ⟨-, -, htl⟩
      · have hnr := hall (fetchCount pre) (by omega)
        refine ⟨fun hr => ?_, fun _ => ⟨_, hpost⟩⟩
        rw [(readyCheck_iff _).2 hr] at hnr
        exact absurd hnr (by decide)
      · cases htl

theorem trace_ordering_witness :
    (checkHandler readyAtThird "example.com" "http").2 =
        [Event.submit sampleURL, Event.fetch (resultURL "abc123"), Event.sleep Second,
          Event.fetch (resultURL "abc123"), Event.sleep Second,
          Event.fetch (resultURL "abc123")] ∧
      (∃ s pre2, [Event.submit sampleURL] = Event.submit s :: pre2) ∧
      [Event.sleep (1 * Second)] = [Event.sleep Second] ∧
      totalSleep (checkHandler readyAtThird "example.com" "http").2 ≤ 60 * Second ∧
      (∃ post2,
        [Event.sleep (1 * Second), Event.fetch (resultURL "abc123"),
          Event.sleep (1 * Second), Event.fetch (resultURL "abc123")] =
            Event.sleep Second :: post2) ∧
      ([] : List Event) = [] :=
  ⟨rfl,
    (trace_ordering readyAtThird "example.com" "http" "abc123").1
      [Event.submit sampleURL] _ (resultURL "abc123") rfl,
    (trace_ordering readyAtThird "example.com" "http" "abc123").2.1
      [Event.submit sampleURL] [Event.sleep (1 * Second)] _ (resultURL "abc123")
      (resultURL "abc123") rfl (fun x hx => by simp at hx),
    (trace_ordering readyAtThird "example.com" "http" "abc123").2.2.1,
    ((trace_ordering readyAtThird "example.com" "http" "abc123").2.2.2
      [] _ (resultURL "abc123") rfl).2
      (fun hr => by
        have h : readyCheck (fetchCheckHostResult readyAtThird 0 "abc123") = false := by decide
        rw [← readyCheck_iff] at hr
        rw [show fetchCount ([] : List Event) = 0 from rfl, h] at hr
        exact absurd hr (by decide)),
    ((trace_ordering readyAtThird "example.com" "http" "abc123").2.2.2
      [Event.fetch (resultURL "abc123"), Event.sleep (1 * Second),
        Event.fetch (resultURL "abc123"), Event.sleep (1 * Second)] [] (resultURL "abc123") rfl).1
      ((readyCheck_iff _).1 (by decide))⟩

end Filtere
